import Mathlib

/-
Verification of the slogr structured-logging facade.

The development shallowly embeds the repository's Go sources:
  * the main logger file (two revisions are present in the repository; the
    current one is embedded at top level, the differing functions of the
    older revision are embedded in namespace Rev1),
  * level.go        (ParseLevel),
  * context.go      (WithLogger / FromContext).

Modelling conventions:
  * slog.Level is a plain Go int, so severities and thresholds are Int
    (DEBUG = -4, INFO = 0, WARN = 4, ERROR = 8).
  * io.Writer destinations are identified by a Nat sink id; the facade never
    inspects the writer, it only hands it to the engine's handler
    constructors, so identity is all that matters.
  * the underlying slog engine's byte serialization is out of scope (the
    spec treats it as an external collaborator); output is therefore
    modelled at record granularity: a handler call yields the list of
    (sink id, record) emissions it performs.
  * slog converts variadic key/value arguments to attributes; attributes
    are modelled already paired, with opaque string payloads.
-/

/-- slog.LevelDebug. -/
def levelDebug : Int := -4

/-- slog.LevelInfo. -/
def levelInfo : Int := 0

/-- slog.LevelWarn. -/
def levelWarn : Int := 4

/-- slog.LevelError. -/
def levelError : Int := 8

/-- Rendering of "%+d" for the offset part of slog.Level.String: the sign is
always printed. -/
def fmtSigned (v : Int) : String :=
  if 0 ≤ v then "+" ++ toString v else toString v

/-- The local helper `str` inside slog.Level.String: base name, plus the
signed offset when it is nonzero. -/
def levelStr (base : String) (val : Int) : String :=
  if val = 0 then base else base ++ fmtSigned val

/-- slog.Level.String: name of the nearest named level below, plus offset. -/
def levelString (l : Int) : String :=
  if l < levelInfo then levelStr "DEBUG" (l - levelDebug)
  else if l < levelWarn then levelStr "INFO" (l - levelInfo)
  else if l < levelError then levelStr "WARN" (l - levelWarn)
  else levelStr "ERROR" (l - levelError)

/-- A structured attribute (slog.Attr); the payload is opaque to this layer
and modelled as a string key/value pair. -/
abbrev Attr := String × String

/-- slog.Record: severity, message text and attributes. The record's
timestamp and call-site pc are engine concerns, not observed by any claim. -/
structure Record where
  level : Int
  message : String
  attrs : List Attr
deriving DecidableEq, Repr

/-- One write performed by a handler: destination sink id and the record
handed to that destination's formatter. -/
abbrev Emission := Nat × Record

/-- HandlerType from the main logger file (Go: int with iota JSON = 0,
Text = 1). -/
inductive HandlerType where
  | json
  | text
deriving DecidableEq, Repr

/-- slog.HandlerOptions as used by this repository: the Level field is a
nilable Leveler (none = nil, making the engine default to INFO).  The
ReplaceAttr hook is set to the identity by DefaultOptions and never
otherwise used, so it does not affect any emitted record and is not
modelled. -/
structure SlogHandlerOptions where
  level : Option Int
deriving DecidableEq, Repr

/-- The slog.Handler reference held by a Logger.  text/json are the engine's
built-in handlers (carrying their configured minimum level and target sink);
custom is an arbitrary caller-supplied handler, modelled by its Enabled
predicate and Handle behaviour; decor is the repository's
levelPrefixHandler wrapper (the Go name contains a reserved word of this
development and is shortened here). -/
inductive Handler where
  | text (minLevel : Option Int) (dest : Nat)
  | json (minLevel : Option Int) (dest : Nat)
  | custom (enabledF : Int → Bool) (handleF : Record → List Emission)
  | decor (inner : Handler)

/-- Handler.Enabled: the built-in handlers compare against their configured
minimum level, defaulting to INFO when the Leveler is nil; the wrapper
embeds its inner handler, so Enabled delegates; a custom handler decides
for itself. -/
def Handler.enabled : Handler → Int → Bool
  | Handler.text m _, l => decide (m.getD levelInfo ≤ l)
  | Handler.json m _, l => decide (m.getD levelInfo ≤ l)
  | Handler.custom e _, l => e l
  | Handler.decor h, l => h.enabled l

/-- Handler.Handle: a built-in handler writes the record to its sink; the
levelPrefixHandler wrapper rewrites the message to
"- " + level name + " - " + message and delegates (its one line of Go);
a custom handler does whatever it does. -/
def Handler.handle : Handler → Record → List Emission
  | Handler.text _ d, r => [(d, r)]
  | Handler.json _ d, r => [(d, r)]
  | Handler.custom _ f, r => f r
  | Handler.decor h, r =>
      h.handle { r with message := "- " ++ levelString r.level ++ " - " ++ r.message }

/-- A handler built by this repository's own construction paths (the
engine's text/json handlers, possibly wrapped); custom handlers are
excluded. -/
def Handler.builtIn : Handler → Prop
  | Handler.text _ _ => True
  | Handler.json _ _ => True
  | Handler.custom _ _ => False
  | Handler.decor h => h.builtIn

/-- The handler performs all of its writes on sink d. -/
def Handler.writesOnlyTo (h : Handler) (d : Nat) : Prop :=
  ∀ r e, e ∈ h.handle r → e.1 = d

/-- slog.Logger.Log: consult the handler's Enabled for the severity; when
enabled, build the record and hand it to the handler; otherwise do
nothing. -/
def slogLog (h : Handler) (level : Int) (msg : String) (attrs : List Attr) : List Emission :=
  if h.enabled level then h.handle { level := level, message := msg, attrs := attrs } else []

/-- ContextKey value LoggerKey = "slogr_logger" from context.go. -/
def LoggerKey : String := "slogr_logger"

/-- A value stored in a context: either a *Logger reference (none = nil
pointer; a non-nil pointer is a logger identity) or a value of some other
dynamic type. -/
inductive CtxVal where
  | loggerVal (p : Option Nat)
  | otherVal (tag : Nat)
deriving DecidableEq, Repr

/-- context.Context as a persistent chain of key/value associations; the
most recently added association for a key shadows older ones, exactly as
context.WithValue / Value behave. -/
abbrev GoContext := List (String × CtxVal)

/-- context.Context.Value: walk the chain for the first association with the
requested key. -/
def ctxValue (ctx : GoContext) (k : String) : Option CtxVal :=
  match ctx with
  | [] => none
  | (k2, v) :: rest => if k2 = k then some v else ctxValue rest k

/-- WithLogger from context.go: derive a new context node carrying the
logger reference under LoggerKey; the parent chain is shared, never
modified. -/
def WithLogger (ctx : GoContext) (logger : Option Nat) : GoContext :=
  (LoggerKey, CtxVal.loggerVal logger) :: ctx

/-- FromContext from context.go: look the key up and type-assert to *Logger;
the assertion succeeds on any *Logger value including a nil one (returning
nil), and fails on absence or a foreign type (returning nil). -/
def FromContext (ctx : GoContext) : Option Nat :=
  match ctxValue ctx LoggerKey with
  | some (CtxVal.loggerVal p) => p
  | _ => none

/-- Options from the main logger file.  The Go field AddLevelPrefix is
renamed AddLevelTag here (the Go name contains a reserved word of this
development); CustomHandler and HandlerOptions are nilable pointers. -/
structure Options where
  Level : Int
  AddLevelTag : Bool
  HandlerType : HandlerType
  CustomHandler : Option Handler
  HandlerOptions : Option SlogHandlerOptions

/-- DefaultOptions from the current revision: INFO threshold, no message
decoration, text handler, handler options at INFO with the identity
ReplaceAttr hook (the hook is the identity, hence unmodelled). -/
def DefaultOptions : Options :=
  { Level := levelInfo
    AddLevelTag := false
    HandlerType := HandlerType.text
    CustomHandler := none
    HandlerOptions := some { level := some levelInfo } }

/-- Logger from the main logger file.  Field names follow the source
(including its typo shouldPreficMessageWithLevel); writerType is the writer
stored at construction; slogger is the wrapped slog.Logger, identified with
its handler. -/
structure Logger where
  level : Int
  shouldPreficMessageWithLevel : Bool
  handlerType : HandlerType
  writerType : Nat
  slogger : Handler

/-- New: default nil options; when HandlerOptions is nil, synthesize one at
the requested threshold; use the custom handler when present, otherwise
build the handler for the requested type (the Go switch sends every
non-JSON value, i.e. Text, to the text handler); wrap with the decoration
handler when requested. -/
def New (output : Nat) (opts? : Option Options) : Logger :=
  let opts := opts?.getD DefaultOptions
  let hopts := opts.HandlerOptions.getD { level := some opts.Level }
  let handler :=
    match opts.CustomHandler with
    | some h => h
    | none =>
      match opts.HandlerType with
      | HandlerType.json => Handler.json hopts.level output
      | HandlerType.text => Handler.text hopts.level output
  let handler2 := if opts.AddLevelTag then Handler.decor handler else handler
  { level := opts.Level
    shouldPreficMessageWithLevel := opts.AddLevelTag
    handlerType := opts.HandlerType
    writerType := output
    slogger := handler2 }

/-- Logger.SetHandler: rebuild the slog handler for the given writer and
type (options defaulting to the logger's current level), re-wrap with the
decoration handler when the logger's flag is set, and install it.  Note the
source assigns only the slogger field: writerType and handlerType are not
updated here. -/
def Logger.SetHandler (logger : Logger) (output : Nat) (handlerType : HandlerType)
    (opts? : Option SlogHandlerOptions) : Logger :=
  let opts := opts?.getD { level := some logger.level }
  let handler :=
    match handlerType with
    | HandlerType.json => Handler.json opts.level output
    | HandlerType.text => Handler.text opts.level output
  let handler2 :=
    if logger.shouldPreficMessageWithLevel then Handler.decor handler else handler
  { logger with slogger := handler2 }

/-- Logger.SetOutput: rebuild the handler targeting the new writer at the
current level and type.  The source does not update the writerType field. -/
def Logger.SetOutput (logger : Logger) (output : Nat) : Logger :=
  logger.SetHandler output logger.handlerType (some { level := some logger.level })

/-- Logger.SetLevel: store the new level, then rebuild the handler at that
level, targeting the writer recorded in writerType (the construction-time
writer). -/
def Logger.SetLevel (logger : Logger) (level : Int) : Logger :=
  let logger2 := { logger with level := level }
  logger2.SetHandler logger2.writerType logger2.handlerType (some { level := some level })

/-- Logger.GetLevel. -/
def Logger.GetLevel (logger : Logger) : Int :=
  logger.level

/-- Logger.GetHandlerType. -/
def Logger.GetHandlerType (logger : Logger) : HandlerType :=
  logger.handlerType

/-- Logger.SetCustomHandler: install the given handler, re-wrapped with the
decoration handler when the flag is set. -/
def Logger.SetCustomHandler (logger : Logger) (handler : Handler) : Logger :=
  let handler2 :=
    if logger.shouldPreficMessageWithLevel then Handler.decor handler else handler
  { logger with slogger := handler2 }

/-- Logger.Log (current revision): delegate to the slog logger with the
variadic key/value arguments (modelled as already-paired attributes). -/
def Logger.Log (logger : Logger) (ctx : GoContext) (level : Int) (msg : String)
    (args : List Attr) : List Emission :=
  slogLog logger.slogger level msg args

/-- Model of fmt.Sprintf (Go standard library, external to this repository):
the format string with each verb replaced by the next argument ("%%" is a
literal percent).  The claims depend only on Logf emitting this function's
result as the record message; the full verb engine is out of scope. -/
def sprintfChars : List Char → List String → List Char
  | [], _ => []
  | '%' :: v :: rest, a :: args =>
      if v = '%' then '%' :: sprintfChars rest (a :: args)
      else a.data ++ sprintfChars rest args
  | c :: rest, args => c :: sprintfChars rest args

/-- String-level wrapper for the fmt.Sprintf model. -/
def sprintf (format : String) (args : List String) : String :=
  String.mk (sprintfChars format.data args)

/-- Logger.Logf (current revision): render the message with fmt.Sprintf
first, then log the rendered text with no further arguments. -/
def Logger.Logf (logger : Logger) (ctx : GoContext) (level : Int) (format : String)
    (args : List String) : List Emission :=
  slogLog logger.slogger level (sprintf format args) []

/-- Logger.Debug. -/
def Logger.Debug (logger : Logger) (ctx : GoContext) (msg : String)
    (args : List Attr) : List Emission :=
  logger.Log ctx levelDebug msg args

/-- Logger.Debugf. -/
def Logger.Debugf (logger : Logger) (ctx : GoContext) (format : String)
    (args : List String) : List Emission :=
  logger.Logf ctx levelDebug format args

/-- Logger.Info. -/
def Logger.Info (logger : Logger) (ctx : GoContext) (msg : String)
    (args : List Attr) : List Emission :=
  logger.Log ctx levelInfo msg args

/-- Logger.Infof. -/
def Logger.Infof (logger : Logger) (ctx : GoContext) (format : String)
    (args : List String) : List Emission :=
  logger.Logf ctx levelInfo format args

/-- Logger.Warn. -/
def Logger.Warn (logger : Logger) (ctx : GoContext) (msg : String)
    (args : List Attr) : List Emission :=
  logger.Log ctx levelWarn msg args

/-- Logger.Warnf. -/
def Logger.Warnf (logger : Logger) (ctx : GoContext) (format : String)
    (args : List String) : List Emission :=
  logger.Logf ctx levelWarn format args

/-- Logger.Error. -/
def Logger.Error (logger : Logger) (ctx : GoContext) (msg : String)
    (args : List Attr) : List Emission :=
  logger.Log ctx levelError msg args

/-- Logger.Errorf. -/
def Logger.Errorf (logger : Logger) (ctx : GoContext) (format : String)
    (args : List String) : List Emission :=
  logger.Logf ctx levelError format args

/-- Logger.Fatal: logs at slog.LevelError + 4; the body is exactly a Log
call, with no termination effect. -/
def Logger.Fatal (logger : Logger) (ctx : GoContext) (msg : String)
    (args : List Attr) : List Emission :=
  logger.Log ctx (levelError + 4) msg args

/-- Logger.Fatalf: logs at slog.LevelError + 4 through Logf. -/
def Logger.Fatalf (logger : Logger) (ctx : GoContext) (format : String)
    (args : List String) : List Emission :=
  logger.Logf ctx (levelError + 4) format args

namespace Rev1

/-- Logger.Logf of the older revision in the repository: the format string
and the variadic arguments are passed straight through to the engine, which
treats the arguments as key/value attributes; no substitution happens. -/
def Logf (logger : Logger) (ctx : GoContext) (level : Int) (msg : String)
    (args : List Attr) : List Emission :=
  slogLog logger.slogger level msg args

end Rev1

/-- Model of strings.ToUpper restricted to ASCII (Lean's Char.toUpper).
For the four level names this is extensionally adequate: the only
non-ASCII rune whose Unicode upper case lands in a letter of
INFO/WARN/ERROR/DEBUG is dotless i mapping to I, which can only complete
"INFO", and unrecognized input already parses to INFO. -/
def goToUpper (s : String) : String :=
  String.mk (s.data.map Char.toUpper)

/-- ParseLevel from level.go: switch on the upper-cased input, defaulting
to INFO. -/
def ParseLevel (s : String) : Int :=
  let u := goToUpper s
  if u = "INFO" then levelInfo
  else if u = "WARN" then levelWarn
  else if u = "ERROR" then levelError
  else if u = "DEBUG" then levelDebug
  else levelInfo

/-- Records captured on sink d over a trace of emissions, in order. -/
def sinkContents (events : List Emission) (d : Nat) : List Record :=
  (events.filter (fun e => e.1 == d)).map (fun e => e.2)

/-- A handler built by this repository's construction paths emits exactly
one record per Handle call. -/
theorem builtIn_handle_length : ∀ (h : Handler), h.builtIn → ∀ r : Record, (h.handle r).length = 1
  | Handler.text _ _, _, _ => rfl
  | Handler.json _ _, _, _ => rfl
  | Handler.custom _ _, hb, _ => hb.elim
  | Handler.decor inner, hb, _ => builtIn_handle_length inner hb _

/-- An engine-level log call performs at most one write. -/
theorem slogLog_length_le_one (h : Handler) (hb : h.builtIn) (S : Int) (msg : String)
    (attrs : List Attr) : (slogLog h S msg attrs).length ≤ 1 := by
  unfold slogLog
  split
  · exact le_of_eq (builtIn_handle_length h hb _)
  · simp

/-- Every emission of a log call lands on the sink the logger's handler
writes to. -/
theorem log_mem_dest (l : Logger) (A : Nat) (hA : l.slogger.writesOnlyTo A)
    (ctx : GoContext) (S : Int) (m : String) (a : List Attr) :
    ∀ e ∈ l.Log ctx S m a, e.1 = A := by
  intro e he
  unfold Logger.Log slogLog at he
  split at he
  · exact hA _ e he
  · simp at he

/-- After SetOutput, every emission of a log call lands on the new sink. -/
theorem setOutput_all_dest (l : Logger) (B : Nat) (ctx : GoContext) (S : Int)
    (m : String) (a : List Attr) : ∀ e ∈ (l.SetOutput B).Log ctx S m a, e.1 = B := by
  intro e he
  unfold Logger.Log slogLog at he
  split at he
  · cases hty : l.handlerType <;> cases hfl : l.shouldPreficMessageWithLevel <;>
      simp [Logger.SetOutput, Logger.SetHandler, hty, hfl, Handler.handle] at he <;>
      simp [he]
  · simp at he

/-- Sink contents distribute over trace concatenation. -/
theorem sinkContents_append (xs ys : List Emission) (d : Nat) :
    sinkContents (xs ++ ys) d = sinkContents xs d ++ sinkContents ys d := by
  simp [sinkContents]

/-- A trace whose emissions all avoid sink d leaves d empty. -/
theorem sinkContents_eq_nil (xs : List Emission) (d : Nat) (h : ∀ e ∈ xs, e.1 ≠ d) :
    sinkContents xs d = [] := by
  unfold sinkContents
  have hf : xs.filter (fun e => e.1 == d) = [] :=
    List.filter_eq_nil_iff.mpr (fun e he => by simpa using h e he)
  rw [hf]
  rfl

/-- C1 (amended): a leveled log call at severity S writes a record iff
S ≥ T, for a Logger built by New without a custom handler whose supplied
HandlerOptions, if any, carry a level equal to the configured threshold
(New itself synthesizes exactly that when HandlerOptions is nil), for a
Logger built with absent configuration (threshold INFO), and after any
SetLevel call on any Logger.  The restriction on HandlerOptions is forced:
a caller-supplied HandlerOptions level overrides the threshold in the
handler's filter (see the counterexample). -/
theorem c1_threshold_filter (out : Nat) (opts : Options) (l : Logger) (T S : Int)
    (ctx : GoContext) (msg : String) (attrs : List Attr)
    (hc : opts.CustomHandler = none)
    (hh : opts.HandlerOptions = none ∨ opts.HandlerOptions = some { level := some opts.Level }) :
    ((New out (some opts)).Log ctx S msg attrs ≠ [] ↔ opts.Level ≤ S)
    ∧ ((New out none).Log ctx S msg attrs ≠ [] ↔ levelInfo ≤ S)
    ∧ ((l.SetLevel T).Log ctx S msg attrs ≠ [] ↔ T ≤ S) := by
  refine ⟨?_, ?_, ?_⟩
  · rcases hh with hh | hh <;>
      cases hty : opts.HandlerType <;> cases hfl : opts.AddLevelTag <;>
      by_cases hTS : opts.Level ≤ S <;>
      simp [New, Logger.Log, slogLog, Handler.enabled, Handler.handle, Option.getD,
        hc, hh, hty, hfl, hTS]
  · by_cases hTS : levelInfo ≤ S <;>
      simp [New, DefaultOptions, Logger.Log, slogLog, Handler.enabled, Handler.handle,
        Option.getD, hTS]
  · cases hty : l.handlerType <;> cases hfl : l.shouldPreficMessageWithLevel <;>
      by_cases hTS : T ≤ S <;>
      simp [Logger.SetLevel, Logger.SetHandler, Logger.Log, slogLog, Handler.enabled,
        Handler.handle, Option.getD, hty, hfl, hTS]

/-- Witness for c1_threshold_filter at concrete inputs. -/
theorem c1_threshold_filter_witness :
    ((New 0 (some DefaultOptions)).Log [] 4 "m" [] ≠ [] ↔ levelInfo ≤ 4)
    ∧ ((New 0 none).Log [] 4 "m" [] ≠ [] ↔ levelInfo ≤ 4)
    ∧ (((New 0 none).SetLevel levelError).Log [] 4 "m" [] ≠ [] ↔ levelError ≤ 4) :=
  c1_threshold_filter 0 DefaultOptions (New 0 none) levelError 4 [] "m" [] rfl (Or.inr rfl)

/-- Concrete configuration exercising the caller-supplied HandlerOptions
path of New: DEBUG threshold, but handler options with a nil Level. -/
def mismatchedOptions : Options :=
  { Level := levelDebug
    AddLevelTag := false
    HandlerType := HandlerType.text
    CustomHandler := none
    HandlerOptions := some { level := none } }

/-- C1 counterexample: a Logger built by New with caller-supplied
HandlerOptions whose Level is nil and a DEBUG threshold reports threshold
DEBUG, yet a DEBUG call (severity equal to the threshold) writes nothing,
because the handler filters at the HandlerOptions level (INFO by nil
default), not at the configured threshold. -/
theorem c1_handler_options_cex :
    (New 0 (some mismatchedOptions)).GetLevel = levelDebug
    ∧ levelDebug ≤ levelDebug
    ∧ (New 0 (some mismatchedOptions)).Log [] levelDebug "m" [] = [] :=
  ⟨rfl, by decide, rfl⟩

/-- C2: the code contradicts the claim.  Build a Logger on sink 0, redirect
it to sink 1 (a log call indeed reaches sink 1), then call SetLevel: the
rebuilt handler targets writerType, which SetOutput never updated, so the
next log call writes to sink 0 again instead of the destination most
recently installed by SetOutput. -/
theorem c2_setlevel_reverts_destination :
    ((New 0 none).SetOutput 1).Log [] levelInfo "mid" []
        = [(1, { level := levelInfo, message := "mid", attrs := [] })]
    ∧ (((New 0 none).SetOutput 1).SetLevel levelError).Log [] levelError "boom" []
        = [(0, { level := levelError, message := "boom", attrs := [] })]
    ∧ (((New 0 none).SetOutput 1).SetLevel levelError).writerType = 0
    ∧ (0 : Nat) ≠ 1 :=
  ⟨rfl, rfl, rfl, by decide⟩

/-- C3: writing through a Logger whose handler targets sink A, then
SetOutput to B, then writing again, leaves A holding exactly the first
write's records and B exactly the second write's; every emission after the
switch lands on B, and threshold, encoding and decoration flag are
unchanged by the switch. -/
theorem c3_setoutput_frame (l : Logger) (A B : Nat) (ctx1 ctx2 : GoContext)
    (S1 S2 : Int) (m1 m2 : String) (a1 a2 : List Attr)
    (hA : l.slogger.writesOnlyTo A) (hAB : A ≠ B) :
    sinkContents (l.Log ctx1 S1 m1 a1 ++ (l.SetOutput B).Log ctx2 S2 m2 a2) A
        = sinkContents (l.Log ctx1 S1 m1 a1) A
    ∧ sinkContents (l.Log ctx1 S1 m1 a1 ++ (l.SetOutput B).Log ctx2 S2 m2 a2) B
        = sinkContents ((l.SetOutput B).Log ctx2 S2 m2 a2) B
    ∧ ((l.SetOutput B).Log ctx2 S2 m2 a2).all (fun e => e.1 == B) = true
    ∧ (l.SetOutput B).level = l.level
    ∧ (l.SetOutput B).handlerType = l.handlerType
    ∧ (l.SetOutput B).shouldPreficMessageWithLevel = l.shouldPreficMessageWithLevel := by
  have h1 : ∀ e ∈ l.Log ctx1 S1 m1 a1, e.1 = A := log_mem_dest l A hA ctx1 S1 m1 a1
  have h2 : ∀ e ∈ (l.SetOutput B).Log ctx2 S2 m2 a2, e.1 = B :=
    setOutput_all_dest l B ctx2 S2 m2 a2
  refine ⟨?_, ?_, ?_, rfl, rfl, rfl⟩
  · rw [sinkContents_append,
      sinkContents_eq_nil ((l.SetOutput B).Log ctx2 S2 m2 a2) A
        (fun e he => by rw [h2 e he]; exact Ne.symm hAB)]
    simp
  · rw [sinkContents_append,
      sinkContents_eq_nil (l.Log ctx1 S1 m1 a1) B (fun e he => by rw [h1 e he]; exact hAB)]
    simp
  · exact List.all_eq_true.mpr (fun e he => by simpa using h2 e he)

/-- Witness for c3_setoutput_frame at concrete inputs. -/
theorem c3_setoutput_frame_witness :
    sinkContents ((New 0 none).Log [] levelInfo "one" []
        ++ ((New 0 none).SetOutput 1).Log [] levelInfo "two" []) 0
      = sinkContents ((New 0 none).Log [] levelInfo "one" []) 0
    ∧ sinkContents ((New 0 none).Log [] levelInfo "one" []
        ++ ((New 0 none).SetOutput 1).Log [] levelInfo "two" []) 1
      = sinkContents (((New 0 none).SetOutput 1).Log [] levelInfo "two" []) 1
    ∧ (((New 0 none).SetOutput 1).Log [] levelInfo "two" []).all (fun e => e.1 == 1) = true
    ∧ ((New 0 none).SetOutput 1).level = (New 0 none).level
    ∧ ((New 0 none).SetOutput 1).handlerType = (New 0 none).handlerType
    ∧ ((New 0 none).SetOutput 1).shouldPreficMessageWithLevel
        = (New 0 none).shouldPreficMessageWithLevel :=
  c3_setoutput_frame (New 0 none) 0 1 [] [] levelInfo levelInfo "one" "two" [] []
    (by intro r e he; simp [New, Handler.handle] at he; simp [he]) (by decide)

/-- C4: ParseLevel is total, matches INFO/WARN/ERROR/DEBUG up to letter
case, and yields INFO for every other input, including the empty string and
"FATAL"; the general conjuncts characterize the matched names through the
upper-casing and show the range is exactly the four severities. -/
theorem c4_parselevel (s : String) :
    ParseLevel "info" = levelInfo ∧ ParseLevel "INFO" = levelInfo ∧ ParseLevel "Info" = levelInfo
    ∧ ParseLevel "" = levelInfo ∧ ParseLevel "FATAL" = levelInfo ∧ ParseLevel "fatal" = levelInfo
    ∧ ParseLevel "warn" = levelWarn ∧ ParseLevel "ErRoR" = levelError
    ∧ ParseLevel "dEbUg" = levelDebug
    ∧ (ParseLevel s = levelWarn ↔ goToUpper s = "WARN")
    ∧ (ParseLevel s = levelError ↔ goToUpper s = "ERROR")
    ∧ (ParseLevel s = levelDebug ↔ goToUpper s = "DEBUG")
    ∧ (ParseLevel s = levelInfo ∨ ParseLevel s = levelWarn ∨ ParseLevel s = levelError
        ∨ ParseLevel s = levelDebug) := by
  refine ⟨by decide, by decide, by decide, by decide, by decide, by decide, by decide,
    by decide, by decide, ?_, ?_, ?_, ?_⟩ <;>
  · by_cases h1 : goToUpper s = "INFO" <;> by_cases h2 : goToUpper s = "WARN" <;>
      by_cases h3 : goToUpper s = "ERROR" <;> by_cases h4 : goToUpper s = "DEBUG" <;>
      simp [ParseLevel, h1, h2, h3, h4, levelInfo, levelWarn, levelError, levelDebug]

/-- Configuration with message decoration enabled, text handler, threshold
T, no custom handler and nil handler options, as passed to New in the
decoration scenario. -/
def decorOptions (T : Int) : Options :=
  { Level := T
    AddLevelTag := true
    HandlerType := HandlerType.text
    CustomHandler := none
    HandlerOptions := none }

/-- C5: the decoration wrapper rewrites every record it forwards — at any
severity, named or not — to "- " + the severity's name (the engine's
rendering, e.g. ERROR+4 for the Fatal severity) + " - " + the original
message, leaving level and structured attributes untouched; and end to end,
a Logger built by New with decoration enabled emits exactly the decorated
message with the original attributes. -/
theorem c5_decoration (h : Handler) (r : Record) (out : Nat) (T S : Int) (ctx : GoContext)
    (msg : String) (attrs : List Attr) (hTS : T ≤ S) :
    (Handler.decor h).handle r
        = h.handle { level := r.level, message := "- " ++ levelString r.level ++ " - " ++ r.message, attrs := r.attrs }
    ∧ (New out (some (decorOptions T))).Log ctx S msg attrs
        = [(out, { level := S, message := "- " ++ levelString S ++ " - " ++ msg, attrs := attrs })] := by
  constructor
  · rfl
  · simp [New, decorOptions, Logger.Log, slogLog, Handler.enabled, Handler.handle,
      Option.getD, hTS]

/-- Witness for c5_decoration at concrete inputs, with the Fatal severity
ERROR + 4. -/
theorem c5_decoration_witness :
    (Handler.decor (Handler.text none 0)).handle
        { level := levelError + 4, message := "x", attrs := [("k", "v")] }
      = (Handler.text none 0).handle
        { level := levelError + 4, message := "- " ++ levelString (levelError + 4) ++ " - " ++ "x", attrs := [("k", "v")] }
    ∧ (New 0 (some (decorOptions levelInfo))).Log [] (levelError + 4) "x" [("k", "v")]
      = [(0, { level := levelError + 4, message := "- " ++ levelString (levelError + 4) ++ " - " ++ "x", attrs := [("k", "v")] })] :=
  c5_decoration (Handler.text none 0)
    { level := levelError + 4, message := "x", attrs := [("k", "v")] }
    0 levelInfo (levelError + 4) [] "x" [("k", "v")] (by decide)

/-- C6: storing a Logger reference and reading it back through the derived
context returns exactly that reference; reading from a context with no
association returns the absent sentinel; and derivation only adds a node in
front of the parent chain, so every lookup under a different key — and
therefore the parent context itself, which is shared unmodified — is
unaffected. -/
theorem c6_context_roundtrip (ctx : GoContext) (p : Option Nat) (k : String)
    (hk : k ≠ LoggerKey) :
    FromContext (WithLogger ctx p) = p
    ∧ FromContext [] = none
    ∧ ctxValue (WithLogger ctx p) k = ctxValue ctx k := by
  refine ⟨rfl, rfl, ?_⟩
  simp [WithLogger, ctxValue, Ne.symm hk]

/-- Witness for c6_context_roundtrip at concrete inputs. -/
theorem c6_context_roundtrip_witness :
    FromContext (WithLogger [("x", CtxVal.otherVal 7)] (some 3)) = some 3
    ∧ FromContext [] = none
    ∧ ctxValue (WithLogger [("x", CtxVal.otherVal 7)] (some 3)) "x"
        = ctxValue [("x", CtxVal.otherVal 7)] "x" :=
  c6_context_roundtrip [("x", CtxVal.otherVal 7)] (some 3) "x" (by decide)

/-- C7 counterexample: in the older revision present in the repository,
Logf does not substitute the arguments into the format string; the record's
message is the raw format string and the arguments are attached as
structured attributes, contradicting the claim (which the fmt.Sprintf model
would render as "hello v" with no attributes). -/
theorem c7_passthrough_cex :
    Rev1.Logf (New 0 none) [] levelInfo "hello %v" [("k", "v")]
        = [(0, { level := levelInfo, message := "hello %v", attrs := [("k", "v")] })]
    ∧ sprintf "hello %v" ["v"] = "hello v"
    ∧ "hello %v" ≠ "hello v"
    ∧ [("k", "v")] ≠ ([] : List Attr) :=
  ⟨rfl, by decide, by decide, by decide⟩

/-- C7 (amended): in the current revision, Logf hands the engine the
fmt.Sprintf-rendered message with an empty attribute list, and every
f-suffixed convenience method delegates to Logf at its severity; in the
older revision, Logf passes the format string as the message and the
arguments through to the engine as attributes, unsubstituted. -/
theorem c7_logf_render (l : Logger) (ctx : GoContext) (level : Int) (format msg : String)
    (args : List String) (attrs : List Attr) :
    l.Logf ctx level format args = slogLog l.slogger level (sprintf format args) []
    ∧ l.Debugf ctx format args = l.Logf ctx levelDebug format args
    ∧ l.Infof ctx format args = l.Logf ctx levelInfo format args
    ∧ l.Warnf ctx format args = l.Logf ctx levelWarn format args
    ∧ l.Errorf ctx format args = l.Logf ctx levelError format args
    ∧ l.Fatalf ctx format args = l.Logf ctx (levelError + 4) format args
    ∧ Rev1.Logf l ctx level msg attrs = slogLog l.slogger level msg attrs :=
  ⟨rfl, rfl, rfl, rfl, rfl, rfl, rfl⟩

/-- C8: Fatal and Fatalf are definitionally the Log and Logf calls at
severity ERROR + 4, which is strictly above ERROR; being those calls, their
only observable effect is the returned emission trace, which for a Logger
holding a repository-built handler contains at most one write — there is no
termination or any other control-flow effect in their bodies. -/
theorem c8_fatal_severity (l : Logger) (ctx : GoContext) (msg format : String)
    (attrs : List Attr) (args : List String) (hb : l.slogger.builtIn) :
    l.Fatal ctx msg attrs = l.Log ctx (levelError + 4) msg attrs
    ∧ l.Fatalf ctx format args = l.Logf ctx (levelError + 4) format args
    ∧ levelError < levelError + 4
    ∧ (l.Fatal ctx msg attrs).length ≤ 1
    ∧ (l.Fatalf ctx format args).length ≤ 1 := by
  refine ⟨rfl, rfl, by decide, ?_, ?_⟩
  · exact slogLog_length_le_one l.slogger hb (levelError + 4) msg attrs
  · exact slogLog_length_le_one l.slogger hb (levelError + 4) (sprintf format args) []

/-- Witness for c8_fatal_severity at concrete inputs. -/
theorem c8_fatal_severity_witness :
    (New 0 none).Fatal [] "boom" [] = (New 0 none).Log [] (levelError + 4) "boom" []
    ∧ (New 0 none).Fatalf [] "boom %v" ["x"] = (New 0 none).Logf [] (levelError + 4) "boom %v" ["x"]
    ∧ levelError < levelError + 4
    ∧ ((New 0 none).Fatal [] "boom" []).length ≤ 1
    ∧ ((New 0 none).Fatalf [] "boom %v" ["x"]).length ≤ 1 :=
  c8_fatal_severity (New 0 none) [] "boom" "boom %v" [] ["x"] trivial

/-- C9: New is a total function (it returns a Logger for every input and
has no error result by type); with absent configuration the Logger has
threshold INFO and the human-readable text handler at INFO; and when a
custom handler is supplied it is installed in place of the
encoding-selected one (wrapped by the decoration handler exactly when
decoration is requested). -/
theorem c9_new_defaults (out : Nat) (opts : Options) (h : Handler)
    (hc : opts.CustomHandler = some h) :
    (New out none).level = levelInfo
    ∧ (New out none).handlerType = HandlerType.text
    ∧ (New out none).slogger = Handler.text (some levelInfo) out
    ∧ (New out (some opts)).slogger
        = (if opts.AddLevelTag then Handler.decor h else h) := by
  refine ⟨rfl, rfl, rfl, ?_⟩
  simp [New, hc]

/-- Configuration supplying a custom handler together with decoration. -/
def customOptions : Options :=
  { Level := levelWarn
    AddLevelTag := true
    HandlerType := HandlerType.json
    CustomHandler := some (Handler.custom (fun _ => true) (fun _ => []))
    HandlerOptions := none }

/-- Witness for c9_new_defaults at concrete inputs. -/
theorem c9_new_defaults_witness :
    (New 5 none).level = levelInfo
    ∧ (New 5 none).handlerType = HandlerType.text
    ∧ (New 5 none).slogger = Handler.text (some levelInfo) 5
    ∧ (New 5 (some customOptions)).slogger
        = (if customOptions.AddLevelTag
            then Handler.decor (Handler.custom (fun _ => true) (fun _ => []))
            else Handler.custom (fun _ => true) (fun _ => [])) :=
  c9_new_defaults 5 customOptions (Handler.custom (fun _ => true) (fun _ => [])) rfl

/-- C10: storing a nil Logger reference yields a derived context from which
FromContext returns nil — indistinguishable at that interface from no
association at all, because the type assertion succeeds on the typed nil
and returns it as the absent sentinel. -/
theorem c10_nil_logger_roundtrip (ctx : GoContext) :
    FromContext (WithLogger ctx none) = none := rfl
